import Mathlib

/-!
Verification of the image-downsampler batch script (src/app.py).

The script is modelled by a shallow embedding: pixel dimensions and DPI
values are naturals, the Python float arithmetic of `resize_image`
(true division and `int()` truncation of non-negative values) is modelled
by exact rational arithmetic with `Nat.floor`, exceptions that the code
catches and turns into a logged `None` are modelled by `Option` or by a
dedicated outcome constructor, and the batch loop `process_images` is
modelled as a function from a directory listing to the list of
operational/log events it performs.
-/

namespace ImageDownsampler

/-- The module-level configuration constants and feature flags of app.py
(lines 13-28).  They are globals in the script; the model passes them as
an explicit record so that claims quantifying over the configuration can
be stated. -/
structure Config where
  maxPixelLength : ℕ
  minPixelLength : ℕ
  dpis : List ℕ
  maxTotalBytes : ℕ
  jpegQuality : ℕ
  defaultDpi : ℕ
  enableCheckMaxBytes : Bool
  enableCheckMinMaxLength : Bool
  enableJpegQuality : Bool

/-- The concrete constant values of app.py:
MAX_PIXEL_LENGTH = 10000, MIN_PIXEL_LENGTH = 600, DPIS = [72, 300, 600, 1200],
MAX_TOTAL_BYTES = 10485760, JPEG_QUALITY = 98, DEFAULT_DPI = 300, and all
three feature flags True. -/
def defaultConfig : Config :=
  { maxPixelLength := 10000
    minPixelLength := 600
    dpis := [72, 300, 600, 1200]
    maxTotalBytes := 10485760
    jpegQuality := 98
    defaultDpi := 300
    enableCheckMaxBytes := true
    enableCheckMinMaxLength := true
    enableJpegQuality := true }

/-- A decoded source raster: pixel width/height and the value of
`image.info.get` at the dpi key, which is `None` (here `none`) when the
image metadata carries no resolution entry. -/
structure SourceImage where
  width : ℕ
  height : ℕ
  dpiInfo : Option (ℕ × ℕ)

/-- A directory entry as the batch loop sees it.  `mimeSupported` models
whether `mimetypes.guess_type` yields one of SUPPORTED_FORMATS;
`decodesTo` is `none` when `Image.open` raises (decode error) and
otherwise gives the decoded raster; `saveFails dpi` models an OSError
raised by `resized_img.save` for that target resolution; `encodedSize dpi`
is the byte length measured by the in-memory trial encode, `none` when
that trial encode itself raises. -/
structure SourceFile where
  name : String
  mimeSupported : Bool
  decodesTo : Option SourceImage
  saveFails : ℕ → Bool
  encodedSize : ℕ → Option ℕ

/-- app.py lines 49-56.  `dpi` is initialised to (DEFAULT_DPI, DEFAULT_DPI)
but `image.info.get` never raises, so the try body always rebinds `dpi` to
the looked-up value — `None` when the key is absent.  The final
`return max(dpi)` is outside the try block: `max(None)` raises TypeError,
which escapes this function (modelled as `.error`); with a present tuple
it returns the larger component. -/
def get_original_dpi (info : Option (ℕ × ℕ)) : Except String ℕ :=
  match info with
  | some p => .ok (max p.1 p.2)
  | none => .error ("TypeError: NoneType object is not iterable")

/-- Result of one `resize_image(image_path, dpi)` call:
`resized W H` models returning a raster of those dimensions,
`skippedInfo` models the informational skip at lines 64-66 (returns None
after logging.info), `failed` models any exception caught at lines 86-91
(returns None after logging.error). -/
inductive ResizeOutcome where
  | resized (W H : ℕ)
  | skippedInfo
  | failed
deriving DecidableEq, Repr

/-- app.py lines 70-75: the naive dimension computation.  Landscape
(`w > h`): new width is `int(w * s)` and the new height is derived from it
by the original ratio; otherwise the height is scaled first.  In the
portrait/square branch Python divides by `original_height`, so a 0-height
image raises ZeroDivisionError there (modelled as `none`); in the
landscape branch the divisor `w` is positive. -/
def computeNewDims (w h : ℕ) (s : ℚ) : Option (ℕ × ℕ) :=
  if w > h then
    let nw := Nat.floor ((w : ℚ) * s)
    let nh := Nat.floor ((nw : ℚ) * ((h : ℚ) / (w : ℚ)))
    some (nw, nh)
  else
    if h = 0 then none
    else
      let nh := Nat.floor ((h : ℚ) * s)
      let nw := Nat.floor ((nh : ℚ) * ((w : ℚ) / (h : ℚ)))
      some (nw, nh)

/-- app.py lines 77-81: the min/max length check.  When the flag is on,
`scale_factor = min(MAX_PIXEL_LENGTH / max(new_width, new_height), 1)` —
a ZeroDivisionError when both naive dimensions are 0 (modelled `none`) —
and each edge is then independently floored after scaling and raised to at
least MIN_PIXEL_LENGTH by `max`. -/
def clampDims (cfg : Config) (nw nh : ℕ) : Option (ℕ × ℕ) :=
  if cfg.enableCheckMinMaxLength then
    if max nw nh = 0 then none
    else
      let sf : ℚ := min ((cfg.maxPixelLength : ℚ) / ((max nw nh : ℕ) : ℚ)) 1
      some (max (Nat.floor ((nw : ℚ) * sf)) cfg.minPixelLength,
            max (Nat.floor ((nh : ℚ) * sf)) cfg.minPixelLength)
  else
    some (nw, nh)

/-- app.py lines 64-84, after the DPI metadata has been read: skip with an
informational log when the target exceeds the source resolution, otherwise
compute `dpi / original_dpi` (ZeroDivisionError when `original_dpi` is 0,
reachable only for target dpi 0, caught by the generic handler), the naive
dimensions and the clamp; any exception on the way becomes `failed`. -/
def resize_core (cfg : Config) (w h odpi dpi : ℕ) : ResizeOutcome :=
  if dpi > odpi then .skippedInfo
  else if odpi = 0 then .failed
  else
    match computeNewDims w h ((dpi : ℚ) / (odpi : ℚ)) with
    | none => .failed
    | some (nw, nh) =>
      match clampDims cfg nw nh with
      | none => .failed
      | some (W, H) => .resized W H

/-- app.py lines 58-91, `resize_image`: open the image (IOError becomes a
logged None, i.e. `failed`), read its DPI metadata (a TypeError from
`get_original_dpi` is caught by the generic handler at lines 89-91, also
`failed`), then scale. -/
def resize_image (cfg : Config) (f : SourceFile) (dpi : ℕ) : ResizeOutcome :=
  match f.decodesTo with
  | none => .failed
  | some img =>
    match get_original_dpi img.dpiInfo with
    | .error _ => .failed
    | .ok odpi => resize_core cfg img.width img.height odpi dpi

/-- Operational and log events of one batch run, in program order:
`opened` records a call of `Image.open` (a decode attempt),
`skippedNonImage`/`processing`/`skipResolution`/`resizeError`/
`sizeWarning`/`sizeCheckError`/`saved`/`saveError` record the
corresponding log lines; `saved` additionally carries the dimensions of
the written artifact. -/
inductive Event where
  | skippedNonImage (name : String)
  | processing (name : String)
  | opened (name : String) (dpi : ℕ)
  | skipResolution (name : String) (dpi : ℕ)
  | resizeError (name : String) (dpi : ℕ)
  | sizeWarning (name : String) (dpi : ℕ) (size : ℕ)
  | sizeCheckError (name : String) (dpi : ℕ)
  | saved (name : String) (dpi : ℕ) (W H : ℕ)
  | saveError (name : String) (dpi : ℕ)
deriving DecidableEq, Repr

/-- Whether an event is a successful write of an output artifact. -/
def isSavedEvent : Event → Bool
  | .saved _ _ _ _ => true
  | _ => false

/-- Whether an event is a decode attempt (`Image.open` call). -/
def isOpenedEvent : Event → Bool
  | .opened _ _ => true
  | _ => false

/-- app.py lines 157-160: the ENABLE_CHECK_MAX_BYTES block — run the
in-memory trial encode (which logs an error and yields None when it
raises) and log a warning when the measured size exceeds MAX_TOTAL_BYTES. -/
def sizeCheckEvents (cfg : Config) (f : SourceFile) (dpi : ℕ) : List Event :=
  if cfg.enableCheckMaxBytes then
    match f.encodedSize dpi with
    | none => [Event.sizeCheckError f.name dpi]
    | some s =>
      if s > cfg.maxTotalBytes then [Event.sizeWarning f.name dpi s] else []
  else []

/-- app.py lines 93-114, `save_resized_image`: attempt the write; an
OSError (or any exception) is caught and logged, success is logged. -/
def saveEvents (f : SourceFile) (dpi W H : ℕ) : List Event :=
  if f.saveFails dpi then [Event.saveError f.name dpi]
  else [Event.saved f.name dpi W H]

/-- app.py lines 152-162: the body of the inner `for dpi in DPIS` loop for
one (file, resolution) pair.  `resize_image` always starts by opening the
file; on a None result the pair is skipped; otherwise the size check runs
and the save is attempted unconditionally afterwards. -/
def processPair (cfg : Config) (f : SourceFile) (dpi : ℕ) : List Event :=
  Event.opened f.name dpi ::
    match resize_image cfg f dpi with
    | .skippedInfo => [Event.skipResolution f.name dpi]
    | .failed => [Event.resizeError f.name dpi]
    | .resized W H => sizeCheckEvents cfg f dpi ++ saveEvents f dpi W H

/-- app.py lines 142-162: one file of the batch loop — skip with a notice
when the MIME type is unsupported, otherwise process every configured
resolution in order. -/
def processFile (cfg : Config) (f : SourceFile) : List Event :=
  if f.mimeSupported then
    Event.processing f.name :: (cfg.dpis.flatMap (processPair cfg f))
  else
    [Event.skippedNonImage f.name]

/-- app.py lines 141-162, `process_images`: `os.listdir(SOURCE_DIR)` is not
wrapped in any try block, so a failure enumerating the source directory
(modelled by an `.error` listing) propagates and halts the run; with a
successful listing every file is processed and the run completes. -/
def process_images (cfg : Config) (listing : Except String (List SourceFile)) :
    Except String (List Event) :=
  match listing with
  | .error e => .error e
  | .ok files => .ok (files.flatMap (processFile cfg))

/-- Number of decode attempts (calls of `Image.open`) among the events of
a run. -/
def countOpens (evs : List Event) : ℕ := (evs.filter isOpenedEvent).length

/-- Executable mirror of `computeNewDims`: since every quantity is
non-negative, each `int(a * (b / c))` truncation equals natural division
`a * b / c`.  Proven equal to `computeNewDims` in `computeNewDims_eq`. -/
def computeNewDimsE (w h dpi odpi : ℕ) : Option (ℕ × ℕ) :=
  if w > h then
    some (w * dpi / odpi, w * dpi / odpi * h / w)
  else
    if h = 0 then none
    else
      some (h * dpi / odpi * w / h, h * dpi / odpi)

/-- Executable mirror of `clampDims`, with the rational scale factor
`min (MAX / L) 1` resolved into the two natural-division branches.
Proven equal to `clampDims` in `clampDims_eq`. -/
def clampDimsE (cfg : Config) (nw nh : ℕ) : Option (ℕ × ℕ) :=
  if cfg.enableCheckMinMaxLength then
    if max nw nh = 0 then none
    else
      if max nw nh ≤ cfg.maxPixelLength then
        some (max nw cfg.minPixelLength, max nh cfg.minPixelLength)
      else
        some (max (nw * cfg.maxPixelLength / max nw nh) cfg.minPixelLength,
              max (nh * cfg.maxPixelLength / max nw nh) cfg.minPixelLength)
  else
    some (nw, nh)

/-- Executable mirror of `resize_core`; proven equal in `resize_core_eq`. -/
def resize_coreE (cfg : Config) (w h odpi dpi : ℕ) : ResizeOutcome :=
  if dpi > odpi then .skippedInfo
  else if odpi = 0 then .failed
  else
    match computeNewDimsE w h dpi odpi with
    | none => .failed
    | some (nw, nh) =>
      match clampDimsE cfg nw nh with
      | none => .failed
      | some (W, H) => .resized W H

/-! ### Equivalence of the rational model with its executable mirror -/

/-- Truncation of `a * (b / c)` over ℚ is natural division `a * b / c`. -/
theorem floor_mul_div (a b c : ℕ) :
    Nat.floor ((a : ℚ) * ((b : ℚ) / (c : ℚ))) = a * b / c := by
  rw [← mul_div_assoc, ← Nat.cast_mul, Nat.floor_div_eq_div]

/-- Truncation of `n * min (M / L) 1` over ℚ, for positive `L`. -/
theorem floor_mul_min_div (n M L : ℕ) (hL : 0 < L) :
    Nat.floor ((n : ℚ) * min ((M : ℚ) / (L : ℚ)) 1) =
      if L ≤ M then n else n * M / L := by
  rcases le_or_lt L M with h | h
  · rw [if_pos h, min_eq_right, mul_one, Nat.floor_natCast]
    exact (one_le_div (by exact_mod_cast hL)).mpr (by exact_mod_cast h)
  · rw [if_neg (not_le.mpr h), min_eq_left, floor_mul_div]
    exact le_of_lt ((div_lt_one (by exact_mod_cast hL)).mpr (by exact_mod_cast h))

theorem computeNewDims_eq (w h dpi odpi : ℕ) :
    computeNewDims w h ((dpi : ℚ) / (odpi : ℚ)) = computeNewDimsE w h dpi odpi := by
  unfold computeNewDims computeNewDimsE
  split
  · simp only [floor_mul_div]
  · split
    · rfl
    · simp only [floor_mul_div]

theorem clampDims_eq (cfg : Config) (nw nh : ℕ) :
    clampDims cfg nw nh = clampDimsE cfg nw nh := by
  unfold clampDims clampDimsE
  split
  · split
    · rfl
    · next hL =>
      have hLpos : 0 < max nw nh := Nat.pos_of_ne_zero hL
      dsimp only
      rw [floor_mul_min_div nw _ _ hLpos, floor_mul_min_div nh _ _ hLpos]
      by_cases hLM : max nw nh ≤ cfg.maxPixelLength
      · simp [hLM]
      · simp [hLM]
  · rfl

theorem resize_core_eq (cfg : Config) (w h odpi dpi : ℕ) :
    resize_core cfg w h odpi dpi = resize_coreE cfg w h odpi dpi := by
  unfold resize_core resize_coreE
  split
  · rfl
  · split
    · rfl
    · rw [computeNewDims_eq]
      cases computeNewDimsE w h dpi odpi with
      | none => rfl
      | some p =>
        cases p with
        | mk nw nh =>
          dsimp only
          rw [clampDims_eq]

/-! ### Behaviour of the clamp -/

/-- With the min/max check enabled and MIN ≤ MAX, whatever the clamp
returns has its longest edge within [MIN, MAX]. -/
theorem clampDimsE_bounds (cfg : Config) (nw nh W H : ℕ)
    (henable : cfg.enableCheckMinMaxLength = true)
    (hminmax : cfg.minPixelLength ≤ cfg.maxPixelLength)
    (hcl : clampDimsE cfg nw nh = some (W, H)) :
    cfg.minPixelLength ≤ max W H ∧ max W H ≤ cfg.maxPixelLength := by
  unfold clampDimsE at hcl
  rw [if_pos henable] at hcl
  by_cases h0 : max nw nh = 0
  · rw [if_pos h0] at hcl
    exact absurd hcl (by simp)
  · rw [if_neg h0] at hcl
    have hLpos : 0 < max nw nh := Nat.pos_of_ne_zero h0
    by_cases hLM : max nw nh ≤ cfg.maxPixelLength
    · rw [if_pos hLM] at hcl
      simp only [Option.some.injEq, Prod.mk.injEq] at hcl
      obtain ⟨rfl, rfl⟩ := hcl
      refine ⟨le_trans (le_max_right _ _) (le_max_left _ _), ?_⟩
      exact max_le (max_le (le_trans (le_max_left nw nh) hLM) hminmax)
        (max_le (le_trans (le_max_right nw nh) hLM) hminmax)
    · rw [if_neg hLM] at hcl
      simp only [Option.some.injEq, Prod.mk.injEq] at hcl
      obtain ⟨rfl, rfl⟩ := hcl
      have hnw : nw * cfg.maxPixelLength / max nw nh ≤ cfg.maxPixelLength := by
        calc nw * cfg.maxPixelLength / max nw nh
            ≤ max nw nh * cfg.maxPixelLength / max nw nh :=
              Nat.div_le_div_right (Nat.mul_le_mul_right _ (le_max_left nw nh))
          _ = cfg.maxPixelLength := Nat.mul_div_cancel_left _ hLpos
      have hnh : nh * cfg.maxPixelLength / max nw nh ≤ cfg.maxPixelLength := by
        calc nh * cfg.maxPixelLength / max nw nh
            ≤ max nw nh * cfg.maxPixelLength / max nw nh :=
              Nat.div_le_div_right (Nat.mul_le_mul_right _ (le_max_right nw nh))
          _ = cfg.maxPixelLength := Nat.mul_div_cancel_left _ hLpos
      refine ⟨le_trans (le_max_right _ _) (le_max_left _ _), ?_⟩
      exact max_le (max_le hnw hminmax) (max_le hnh hminmax)

/-- When both naive edges already lie within [MIN, MAX] (and are not both
zero), the clamp is the identity. -/
theorem clampDimsE_id (cfg : Config) (nw nh : ℕ)
    (hpos : 0 < max nw nh)
    (hmin : cfg.minPixelLength ≤ min nw nh)
    (hmax : max nw nh ≤ cfg.maxPixelLength) :
    clampDimsE cfg nw nh = some (nw, nh) := by
  simp [clampDimsE, Nat.pos_iff_ne_zero.mp hpos, hmax,
    max_eq_left (le_trans hmin (min_le_left nw nh)),
    max_eq_left (le_trans hmin (min_le_right nw nh))]

/-- When the naive longest edge is positive but below MIN ≤ MAX, the
enabled clamp raises both edges independently to exactly MIN. -/
theorem clampDimsE_below_min (cfg : Config) (nw nh : ℕ)
    (henable : cfg.enableCheckMinMaxLength = true)
    (hpos : 0 < max nw nh)
    (hbelow : max nw nh < cfg.minPixelLength)
    (hminmax : cfg.minPixelLength ≤ cfg.maxPixelLength) :
    clampDimsE cfg nw nh = some (cfg.minPixelLength, cfg.minPixelLength) := by
  simp [clampDimsE, henable, Nat.pos_iff_ne_zero.mp hpos,
    le_trans (le_of_lt hbelow) hminmax,
    max_eq_right (le_of_lt (lt_of_le_of_lt (le_max_left nw nh) hbelow)),
    max_eq_right (le_of_lt (lt_of_le_of_lt (le_max_right nw nh) hbelow))]

/-- C1.  With the min/max length check enabled and the configured minimum
below the configured maximum, every raster that `resize_image` produces
has its longest edge (max of width and height) between MIN_PIXEL_LENGTH
and MAX_PIXEL_LENGTH inclusive. -/
theorem c1_output_longest_edge_bounded (cfg : Config) (f : SourceFile)
    (dpi W H : ℕ)
    (henable : cfg.enableCheckMinMaxLength = true)
    (hlt : cfg.minPixelLength < cfg.maxPixelLength)
    (hout : resize_image cfg f dpi = .resized W H) :
    cfg.minPixelLength ≤ max W H ∧ max W H ≤ cfg.maxPixelLength := by
  rcases hdec : f.decodesTo with _ | img
  · simp [resize_image, hdec] at hout
  rcases hg : get_original_dpi img.dpiInfo with e | odpi
  · simp [resize_image, hdec, hg] at hout
  simp only [resize_image, hdec, hg] at hout
  rw [resize_core_eq] at hout
  unfold resize_coreE at hout
  split at hout
  · exact absurd hout (by simp)
  split at hout
  · exact absurd hout (by simp)
  split at hout
  · exact absurd hout (by simp)
  rename_i nw nh heq
  split at hout
  · exact absurd hout (by simp)
  rename_i W2 H2 hcl
  obtain ⟨rfl, rfl⟩ : W2 = W ∧ H2 = H := by simpa using hout
  exact clampDimsE_bounds cfg nw nh W2 H2 henable (le_of_lt hlt) hcl

/-- Witness for C1 at a concrete input: a 4000×3000 image at 300 dpi
downsampled to 72 dpi yields a 960×720 raster, whose longest edge lies in
[600, 10000]. -/
theorem c1_output_longest_edge_bounded_witness :
    defaultConfig.minPixelLength ≤ max 960 720 ∧
      max 960 720 ≤ defaultConfig.maxPixelLength :=
  c1_output_longest_edge_bounded defaultConfig
    ⟨"photo.jpg", true, some ⟨4000, 3000, some (300, 300)⟩,
      fun _ => false, fun _ => some 0⟩
    72 960 720 rfl (by decide)
    (by
      show resize_core defaultConfig 4000 3000 300 72 = .resized 960 720
      rw [resize_core_eq]; decide)

/-- Composition: when neither skip nor any exception fires, the resize
outcome is the clamped naive dimensions. -/
theorem resize_core_resized (cfg : Config) (w h odpi dpi nw nh W H : ℕ)
    (hdpi : dpi ≤ odpi) (hodpi : odpi ≠ 0)
    (hcomp : computeNewDimsE w h dpi odpi = some (nw, nh))
    (hcl : clampDimsE cfg nw nh = some (W, H)) :
    resize_core cfg w h odpi dpi = .resized W H := by
  rw [resize_core_eq]
  unfold resize_coreE
  rw [if_neg (Nat.not_lt.mpr hdpi), if_neg hodpi, hcomp]
  dsimp only
  rw [hcl]

/-- A truncated non-negative rational is within one of the exact value. -/
theorem abs_floor_sub_le_one (x : ℚ) (hx : 0 ≤ x) :
    |((Nat.floor x : ℕ) : ℚ) - x| ≤ 1 := by
  rw [abs_le]
  constructor
  · have := Nat.lt_floor_add_one x
    linarith
  · have := Nat.floor_le hx
    linarith

/-- The naive dimension computation derives the short edge from the long
edge by the exact original ratio, so before any clamping the short edge is
within one pixel of the value the source aspect ratio dictates. -/
theorem computeNewDims_aspect (w h : ℕ) (s : ℚ) (nw nh : ℕ)
    (hcomp : computeNewDims w h s = some (nw, nh)) :
    if h < w then |(nh : ℚ) - (nw : ℚ) * ((h : ℚ) / (w : ℚ))| ≤ 1
    else |(nw : ℚ) - (nh : ℚ) * ((w : ℚ) / (h : ℚ))| ≤ 1 := by
  unfold computeNewDims at hcomp
  split at hcomp
  · rename_i hwh
    rw [if_pos hwh]
    simp only [Option.some.injEq, Prod.mk.injEq] at hcomp
    obtain ⟨rfl, rfl⟩ := hcomp
    exact abs_floor_sub_le_one _ (by positivity)
  · rename_i hwh
    rw [if_neg hwh]
    split at hcomp
    · exact absurd hcomp (by simp)
    simp only [Option.some.injEq, Prod.mk.injEq] at hcomp
    obtain ⟨rfl, rfl⟩ := hcomp
    exact abs_floor_sub_le_one _ (by positivity)

/-- C2 counterexample.  A 4000×200 source at 300 dpi, resized to target
300 dpi, produces a 4000×600 output: the per-edge minimum clamp raises the
short edge from 200 to 600, so the output aspect ratio misses the source
aspect ratio by 400 pixels on the short edge, not at most one. -/
theorem c2_counterexample :
    resize_image defaultConfig
        ⟨"wide.jpg", true, some ⟨4000, 200, some (300, 300)⟩,
          fun _ => false, fun _ => some 0⟩ 300 = .resized 4000 600 ∧
    ¬ (|(600 : ℚ) - (4000 : ℚ) * ((200 : ℚ) / (4000 : ℚ))| ≤ 1) := by
  constructor
  · show resize_core defaultConfig 4000 200 300 300 = .resized 4000 600
    rw [resize_core_eq]; decide
  · norm_num

/-- C2 as amended: provided the min/max-length check leaves the naively
scaled dimensions unchanged (both lie within [MIN, MAX], whatever the
flag), the output aspect ratio equals the source aspect ratio to within
one pixel of rounding error on the short edge. -/
theorem c2_aspect_preserved_when_unclamped (cfg : Config)
    (w h odpi dpi nw nh : ℕ)
    (hdpi : dpi ≤ odpi) (hodpi : odpi ≠ 0)
    (hcomp : computeNewDims w h ((dpi : ℚ) / (odpi : ℚ)) = some (nw, nh))
    (hpos : 0 < max nw nh)
    (hmin : cfg.minPixelLength ≤ min nw nh)
    (hmax : max nw nh ≤ cfg.maxPixelLength) :
    resize_core cfg w h odpi dpi = .resized nw nh ∧
    (if h < w then |(nh : ℚ) - (nw : ℚ) * ((h : ℚ) / (w : ℚ))| ≤ 1
     else |(nw : ℚ) - (nh : ℚ) * ((w : ℚ) / (h : ℚ))| ≤ 1) := by
  refine ⟨?_, computeNewDims_aspect w h _ nw nh hcomp⟩
  rw [computeNewDims_eq] at hcomp
  exact resize_core_resized cfg w h odpi dpi nw nh nw nh hdpi hodpi hcomp
    (clampDimsE_id cfg nw nh hpos hmin hmax)

/-- Witness for the amended C2: 4000×3000 at 300 dpi resized to 72 dpi
gives 960×720, both edges within [600, 10000], and 720 is within one pixel
of 960 · 3000/4000 = 720. -/
theorem c2_aspect_preserved_when_unclamped_witness :
    resize_core defaultConfig 4000 3000 300 72 = .resized 960 720 ∧
    (if 3000 < 4000 then
        |(720 : ℚ) - (960 : ℚ) * ((3000 : ℚ) / (4000 : ℚ))| ≤ 1
     else |(960 : ℚ) - (720 : ℚ) * ((4000 : ℚ) / (3000 : ℚ))| ≤ 1) :=
  c2_aspect_preserved_when_unclamped defaultConfig 4000 3000 300 72 960 720
    (by decide) (by decide) (by rw [computeNewDims_eq]; decide)
    (by decide) (by decide) (by decide)

/-- C3 counterexample.  A 1000×100 source at 600 dpi targeted at 300 dpi
naively scales to 500×50, whose longest edge 500 is below the configured
minimum 600; the code then outputs 600×600, whereas scaling both edges
proportionally so the longest edge equals the minimum would give 600×60:
the width-to-height ratio is not preserved. -/
theorem c3_counterexample :
    computeNewDims 1000 100 (((300 : ℕ) : ℚ) / ((600 : ℕ) : ℚ)) =
      some (500, 50) ∧
    max 500 50 < defaultConfig.minPixelLength ∧
    resize_image defaultConfig
        ⟨"r.jpg", true, some ⟨1000, 100, some (600, 600)⟩,
          fun _ => false, fun _ => some 0⟩ 300 = .resized 600 600 ∧
    ¬ ((600 : ℚ) / (600 : ℚ) = (1000 : ℚ) / (100 : ℚ)) := by
  refine ⟨by rw [computeNewDims_eq]; decide, by decide, ?_, by norm_num⟩
  show resize_core defaultConfig 1000 100 600 300 = .resized 600 600
  rw [resize_core_eq]; decide

/-- C3 as amended: when the naively scaled longest edge is positive but
falls below the configured minimum (and MIN ≤ MAX), the enabled check
raises each edge independently to the minimum — the output is exactly
MIN×MIN, so its longest edge equals the minimum, but the edges are not
scaled proportionally. -/
theorem c3_min_clamp_sets_both_edges_to_min (cfg : Config)
    (w h odpi dpi nw nh : ℕ)
    (henable : cfg.enableCheckMinMaxLength = true)
    (hdpi : dpi ≤ odpi) (hodpi : odpi ≠ 0)
    (hcomp : computeNewDims w h ((dpi : ℚ) / (odpi : ℚ)) = some (nw, nh))
    (hpos : 0 < max nw nh)
    (hbelow : max nw nh < cfg.minPixelLength)
    (hminmax : cfg.minPixelLength ≤ cfg.maxPixelLength) :
    resize_core cfg w h odpi dpi =
      .resized cfg.minPixelLength cfg.minPixelLength := by
  rw [computeNewDims_eq] at hcomp
  exact resize_core_resized cfg w h odpi dpi nw nh _ _ hdpi hodpi hcomp
    (clampDimsE_below_min cfg nw nh henable hpos hbelow hminmax)

/-- Witness for the amended C3 at the 1000×100, 600 dpi → 300 dpi input:
the output is 600×600. -/
theorem c3_min_clamp_sets_both_edges_to_min_witness :
    resize_core defaultConfig 1000 100 600 300 = .resized 600 600 :=
  c3_min_clamp_sets_both_edges_to_min defaultConfig 1000 100 600 300 500 50
    rfl (by decide) (by decide) (by rw [computeNewDims_eq]; decide)
    (by decide) (by decide) (by decide)

/-- C9 counterexample.  A 4000×200 source whose resolution equals the
target (300 dpi) has its longest edge 4000 within the configured maximum
10000, yet the output is 4000×600, not the original 4000×200: the
minimum-length clamp also alters the dimensions, not only the
maximum-length clamp. -/
theorem c9_counterexample :
    max 4000 200 ≤ defaultConfig.maxPixelLength ∧
    resize_image defaultConfig
        ⟨"flat.jpg", true, some ⟨4000, 200, some (300, 300)⟩,
          fun _ => false, fun _ => some 0⟩ 300 = .resized 4000 600 ∧
    ¬ (ResizeOutcome.resized 4000 600 = .resized 4000 200) := by
  refine ⟨by decide, ?_, by decide⟩
  show resize_core defaultConfig 4000 200 300 300 = .resized 4000 600
  rw [resize_core_eq]; decide

/-- C9 as amended: when the effective source resolution equals the target
resolution, the scale factor is 1 and the computed dimensions equal the
original width and height, provided the longest edge is within the
configured maximum and both edges are at least the configured minimum
(each clamp otherwise adjusts the edges). -/
theorem c9_identity_at_equal_dpi (cfg : Config) (w h odpi : ℕ)
    (hodpi : odpi ≠ 0)
    (hpos : 0 < max w h)
    (hmin : cfg.minPixelLength ≤ min w h)
    (hmax : max w h ≤ cfg.maxPixelLength) :
    resize_core cfg w h odpi odpi = .resized w h := by
  have hcompE : computeNewDimsE w h odpi odpi = some (w, h) := by
    unfold computeNewDimsE
    split
    · rename_i hwh
      rw [Nat.mul_div_cancel _ (Nat.pos_of_ne_zero hodpi),
        Nat.mul_div_cancel_left _ (lt_of_le_of_lt (Nat.zero_le h) hwh)]
    · rename_i hwh
      have hh : 0 < h := by
        rcases Nat.eq_zero_or_pos h with h0 | h0
        · exfalso
          have hw : w = 0 := Nat.le_antisymm (h0 ▸ Nat.le_of_not_lt hwh)
            (Nat.zero_le w)
          rw [hw, h0] at hpos
          exact absurd hpos (by decide)
        · exact h0
      rw [if_neg (Nat.pos_iff_ne_zero.mp hh),
        Nat.mul_div_cancel _ (Nat.pos_of_ne_zero hodpi),
        Nat.mul_div_cancel_left _ hh]
  exact resize_core_resized cfg w h odpi odpi w h w h (le_refl odpi) hodpi
    hcompE (clampDimsE_id cfg w h hpos hmin hmax)

/-- Witness for the amended C9: a 4000×3000 image at 300 dpi targeted at
300 dpi keeps its original dimensions. -/
theorem c9_identity_at_equal_dpi_witness :
    resize_core defaultConfig 4000 3000 300 300 = .resized 4000 3000 :=
  c9_identity_at_equal_dpi defaultConfig 4000 3000 300
    (by decide) (by decide) (by decide) (by decide)

/-! ### Event-level lemmas about the batch loop -/

/-- A file whose decode raises (IOError at `Image.open`) makes
`resize_image` return None after an error log, for every resolution. -/
theorem resize_image_decode_failure (cfg : Config) (f : SourceFile) (dpi : ℕ)
    (h : f.decodesTo = none) : resize_image cfg f dpi = .failed := by
  simp [resize_image, h]

/-- The size-check block never performs a decode attempt. -/
theorem sizeCheckEvents_not_opened (cfg : Config) (f : SourceFile) (dpi : ℕ) :
    (sizeCheckEvents cfg f dpi).filter isOpenedEvent = [] := by
  unfold sizeCheckEvents
  split
  · split
    · rfl
    · split <;> rfl
  · rfl

/-- The size-check block never writes an output artifact. -/
theorem sizeCheckEvents_not_saved (cfg : Config) (f : SourceFile) (dpi : ℕ) :
    (sizeCheckEvents cfg f dpi).all (fun ev => !(isSavedEvent ev)) = true := by
  unfold sizeCheckEvents
  split
  · split
    · rfl
    · split <;> rfl
  · rfl

/-- The save block never performs a decode attempt. -/
theorem saveEvents_not_opened (f : SourceFile) (dpi W H : ℕ) :
    (saveEvents f dpi W H).filter isOpenedEvent = [] := by
  unfold saveEvents
  split <;> rfl

/-- Each (file, resolution) pair performs exactly one decode attempt. -/
theorem countOpens_processPair (cfg : Config) (f : SourceFile) (dpi : ℕ) :
    countOpens (processPair cfg f dpi) = 1 := by
  unfold countOpens processPair
  cases hres : resize_image cfg f dpi with
  | skippedInfo => rfl
  | failed => rfl
  | resized W H =>
    simp [isOpenedEvent, List.filter_append, sizeCheckEvents_not_opened,
      saveEvents_not_opened]

/-- Decode attempts over a list of resolutions: one per resolution. -/
theorem countOpens_flatMap (cfg : Config) (f : SourceFile) (l : List ℕ) :
    countOpens (l.flatMap (processPair cfg f)) = l.length := by
  induction l with
  | nil => rfl
  | cons d ds ih =>
    have h1 := countOpens_processPair cfg f d
    unfold countOpens at h1 ih ⊢
    rw [List.flatMap_cons, List.filter_append, List.length_append, h1, ih,
      List.length_cons]
    omega

/-- Decode attempts per file: one per configured resolution when the MIME
type is supported, none otherwise. -/
theorem countOpens_processFile (cfg : Config) (f : SourceFile) :
    countOpens (processFile cfg f) =
      if f.mimeSupported then cfg.dpis.length else 0 := by
  unfold processFile
  split
  · have h := countOpens_flatMap cfg f cfg.dpis
    unfold countOpens at h ⊢
    simpa [List.filter_cons, isOpenedEvent] using h
  · rfl

/-- C5 counterexample: with the configured resolution list
[72, 300, 600, 1200], a single supported source file is decoded four
times in one batch run, not once. -/
theorem c5_counterexample :
    countOpens (processFile defaultConfig
      ⟨"photo.jpg", true, some ⟨4000, 3000, some (300, 300)⟩,
        fun _ => false, fun _ => some 0⟩) = 4 ∧ (4 : ℕ) ≠ 1 := by
  refine ⟨?_, by decide⟩
  rw [countOpens_processFile]
  rfl

/-- C5 as amended: the decode operation (`Image.open` inside
`resize_image`) runs once per (file, target resolution) pair — a
supported file is decoded as many times as there are configured target
resolutions; an unsupported file is never decoded. -/
theorem c5_decode_once_per_resolution (cfg : Config) (f : SourceFile) :
    countOpens (processFile cfg f) =
      if f.mimeSupported then cfg.dpis.length else 0 :=
  countOpens_processFile cfg f

/-- C6.  When the target resolution strictly exceeds the effective source
resolution, `resize_image` returns the informational skip and the pair
produces exactly the decode attempt and the informational log entry — in
particular no output artifact. -/
theorem c6_skip_when_target_exceeds_source (cfg : Config) (f : SourceFile)
    (img : SourceImage) (x y dpi : ℕ)
    (hdec : f.decodesTo = some img) (hinfo : img.dpiInfo = some (x, y))
    (hgt : max x y < dpi) :
    resize_image cfg f dpi = .skippedInfo ∧
    processPair cfg f dpi =
      [Event.opened f.name dpi, Event.skipResolution f.name dpi] := by
  have h1 : resize_image cfg f dpi = .skippedInfo := by
    simp [resize_image, hdec, hinfo, get_original_dpi, resize_core, hgt]
  exact ⟨h1, by simp [processPair, h1]⟩

/-- Witness for C6: a 4000×3000 image at 300 dpi targeted at 600 dpi is
skipped with an informational log only. -/
theorem c6_skip_when_target_exceeds_source_witness :
    resize_image defaultConfig
      ⟨"p.jpg", true, some ⟨4000, 3000, some (300, 300)⟩,
        fun _ => false, fun _ => some 0⟩ 600 = .skippedInfo ∧
    processPair defaultConfig
      ⟨"p.jpg", true, some ⟨4000, 3000, some (300, 300)⟩,
        fun _ => false, fun _ => some 0⟩ 600 =
      [Event.opened ("p.jpg") 600, Event.skipResolution ("p.jpg") 600] :=
  c6_skip_when_target_exceeds_source defaultConfig _ _ 300 300 600
    rfl rfl (by decide)

/-- C7.  A failed directory listing is the only fatal error: it propagates
out of `process_images`; with a successful listing the run always
completes, a file whose decode fails contributes no output artifact while
the files before and after it are still processed, and a (file,
resolution) pair whose save fails writes no artifact for that pair. -/
theorem c7_only_listing_failure_is_fatal (cfg : Config) (e : String)
    (pre post : List SourceFile) (bad f : SourceFile) (dpi : ℕ)
    (hbad : bad.decodesTo = none) (hsave : f.saveFails dpi = true) :
    process_images cfg (.error e) = .error e ∧
    process_images cfg (.ok (pre ++ bad :: post)) =
      .ok (pre.flatMap (processFile cfg) ++
        (processFile cfg bad ++ post.flatMap (processFile cfg))) ∧
    (processFile cfg bad).all (fun ev => !(isSavedEvent ev)) = true ∧
    (processPair cfg f dpi).all (fun ev => !(isSavedEvent ev)) = true := by
  refine ⟨rfl, by simp [process_images], ?_, ?_⟩
  · unfold processFile
    split
    · rw [List.all_cons]
      simp only [isSavedEvent, Bool.not_false, Bool.true_and]
      rw [List.all_eq_true]
      intro ev hev
      rw [List.mem_flatMap] at hev
      obtain ⟨d, hd, hevp⟩ := hev
      have hres := resize_image_decode_failure cfg bad d hbad
      simp [processPair, hres] at hevp
      rcases hevp with rfl | rfl <;> rfl
    · rfl
  · unfold processPair
    cases hres : resize_image cfg f dpi with
    | skippedInfo => rfl
    | failed => rfl
    | resized W H =>
      have h2 : saveEvents f dpi W H = [Event.saveError f.name dpi] := by
        unfold saveEvents
        rw [if_pos hsave]
      rw [List.all_cons, List.all_append, h2,
        sizeCheckEvents_not_saved cfg f dpi]
      rfl

/-- Witness for C7 with a one-file listing whose file fails to decode and
a second file whose save fails at 300 dpi. -/
theorem c7_only_listing_failure_is_fatal_witness :
    process_images defaultConfig (.error ("boom")) = .error ("boom") ∧
    process_images defaultConfig
        (.ok ([] ++ ⟨"bad.jpg", true, none, fun _ => false, fun _ => none⟩ :: [])) =
      .ok (([] : List SourceFile).flatMap (processFile defaultConfig) ++
        (processFile defaultConfig
            ⟨"bad.jpg", true, none, fun _ => false, fun _ => none⟩ ++
          ([] : List SourceFile).flatMap (processFile defaultConfig))) ∧
    (processFile defaultConfig
        ⟨"bad.jpg", true, none, fun _ => false, fun _ => none⟩).all
      (fun ev => !(isSavedEvent ev)) = true ∧
    (processPair defaultConfig
        ⟨"s.jpg", true, some ⟨100, 100, some (300, 300)⟩,
          fun _ => true, fun _ => some 0⟩ 300).all
      (fun ev => !(isSavedEvent ev)) = true :=
  c7_only_listing_failure_is_fatal defaultConfig ("boom") [] []
    ⟨"bad.jpg", true, none, fun _ => false, fun _ => none⟩
    ⟨"s.jpg", true, some ⟨100, 100, some (300, 300)⟩,
      fun _ => true, fun _ => some 0⟩ 300 rfl rfl

/-- C8.  With the byte-budget check enabled, a produced raster whose
trial-encoded size exceeds MAX_TOTAL_BYTES gets a warning event, and the
save is still attempted afterwards (the written artifact when the save
succeeds, the logged save error when it fails): the check is
observational, not a gate. -/
theorem c8_size_warning_is_observational (cfg : Config) (f : SourceFile)
    (dpi W H s : ℕ)
    (henable : cfg.enableCheckMaxBytes = true)
    (hres : resize_image cfg f dpi = .resized W H)
    (hsize : f.encodedSize dpi = some s)
    (hover : cfg.maxTotalBytes < s) :
    Event.sizeWarning f.name dpi s ∈ processPair cfg f dpi ∧
    (if f.saveFails dpi then Event.saveError f.name dpi
     else Event.saved f.name dpi W H) ∈ processPair cfg f dpi := by
  have hsce : sizeCheckEvents cfg f dpi = [Event.sizeWarning f.name dpi s] := by
    simp [sizeCheckEvents, henable, hsize, hover]
  constructor
  · simp [processPair, hres, hsce]
  · cases hf : f.saveFails dpi <;>
      simp [processPair, hres, hsce, saveEvents, hf]

/-- Witness for C8: a 4000×3000 raster whose trial encode measures
20000000 bytes (over the 10485760 budget) warns and is still saved. -/
theorem c8_size_warning_is_observational_witness :
    Event.sizeWarning ("big.jpg") 300 20000000 ∈
      processPair defaultConfig
        ⟨"big.jpg", true, some ⟨4000, 3000, some (300, 300)⟩,
          fun _ => false, fun _ => some 20000000⟩ 300 ∧
    Event.saved ("big.jpg") 300 4000 3000 ∈
      processPair defaultConfig
        ⟨"big.jpg", true, some ⟨4000, 3000, some (300, 300)⟩,
          fun _ => false, fun _ => some 20000000⟩ 300 :=
  c8_size_warning_is_observational defaultConfig
    ⟨"big.jpg", true, some ⟨4000, 3000, some (300, 300)⟩,
      fun _ => false, fun _ => some 20000000⟩ 300 4000 3000 20000000
    rfl
    (by
      show resize_core defaultConfig 4000 3000 300 300 = .resized 4000 3000
      rw [resize_core_eq]; decide)
    rfl (by decide)

/-- C4 (code bug).  For a decodable image whose metadata has no dpi entry,
`image.info.get` returns None, so `max(None)` raises TypeError instead of
falling back to DEFAULT_DPI as the docstring promises; the exception is
caught by the generic handler in `resize_image`, so every (file,
resolution) pair of that file is skipped with an error log and nothing is
ever saved — the file is not processed normally. -/
theorem c4_missing_dpi_metadata_not_defaulted :
    get_original_dpi none =
      .error ("TypeError: NoneType object is not iterable") ∧
    resize_image defaultConfig
      ⟨"nodpi.png", true, some ⟨4000, 3000, none⟩,
        fun _ => false, fun _ => some 0⟩ 72 = .failed ∧
    (processFile defaultConfig
        ⟨"nodpi.png", true, some ⟨4000, 3000, none⟩,
          fun _ => false, fun _ => some 0⟩).all
      (fun ev => !(isSavedEvent ev)) = true :=
  ⟨rfl, rfl, by decide⟩

/-- C10.  When the dpi metadata is present with components x and y, the
effective source resolution that `resize_image` feeds to the scaling
policy — and hence to its skip test — is max x y. -/
theorem c10_effective_resolution_is_max (cfg : Config) (nm : String)
    (ms : Bool) (w h x y dpi : ℕ) (sf : ℕ → Bool) (es : ℕ → Option ℕ) :
    get_original_dpi (some (x, y)) = .ok (max x y) ∧
    resize_image cfg ⟨nm, ms, some ⟨w, h, some (x, y)⟩, sf, es⟩ dpi =
      resize_core cfg w h (max x y) dpi :=
  ⟨rfl, rfl⟩

end ImageDownsampler
